import Mathlib

/-!
Verification of the activity-lifecycle and storage core of `st_app.py`.

The embedding below follows the source file directly:

* `haversine` embeds the float computation of `haversine` (lines 88-95),
  with Python floats modelled as real numbers.
* `Activity` embeds the `properties` object of an activity record; status
  strings ("Pending", "In Progress", "Paused", "Completed", "Verified")
  become the constructors of `Status`.
* `perform_action` embeds the inner function `perform_action` of
  `detail_view` (lines 299-320).
* `applyTransition` embeds one click on one of the five action buttons of
  `detail_view` (lines 322-338): the surrounding role gate
  (`user.role in [admin, vendor]`, and the admin-only rendering of the
  Verify button), the per-button `disabled` status conditions, and the
  button body.
* `Store`, `get_file_content` and `create_or_update_file` embed the
  GitHub-backed record store (lines 34-85) together with the
  `st.cache_data` read cache; the remote content store itself is an
  external collaborator, whose put/get semantics (create, update with
  matching token, reject stale token, reject update without token) are
  those of the GitHub contents API as described in the specification.
-/

/-- Status enum of an activity; the source stores these as the strings
"Pending", "In Progress", "Paused", "Completed", "Verified". -/
inductive Status where
  | Pending
  | InProgress
  | Paused
  | Completed
  | Verified
  deriving DecidableEq, Repr

/-- Role of an acting user, as resolved by `check_password` (lines 103-111):
admin, vendor, or the unauthenticated public default. -/
inductive Role where
  | admin
  | vendor
  | public
  deriving DecidableEq, Repr

/-- Acting user: username and role. -/
structure User where
  username : String
  role : Role
  deriving DecidableEq, Repr

/-- An observed geolocation sample, as delivered by the location widget:
latitude and longitude. Absence of a sample is modelled with `Option`. -/
structure GeoPoint where
  latitude : ℝ
  longitude : ℝ

/-- One entry of the append-only `logs` sequence. -/
structure LogEntry where
  timestamp : String
  user : String
  action : String
  deriving DecidableEq, Repr

/-- One entry of the `location_trail` sequence; coordinates are stored as
the pair (longitude, latitude), as in the source. -/
structure TrailEntry where
  timestamp : String
  coordinates : ℝ × ℝ

/-- The `properties` object of an activity record. `geofence_center` is the
pair (latitude, longitude) as built in `create_activity_view` (line 380);
`geofence_center` and `geofence_radius` are optional because the source
reads them with `props.get`. `location_trail` is optional because the key
may be missing from a stored record (lines 314-315). -/
structure Activity where
  title : String
  description : String
  vendor : String
  site : String
  status : Status
  createdAt : String
  geofence_center : Option (ℝ × ℝ)
  geofence_radius : Option ℝ
  logs : List LogEntry
  location_trail : Option (List TrailEntry)

/-- Errors with which an attempted transition can be refused, matching the
refusal paths of `detail_view`: a disabled or absent button for an
unauthorized role, a disabled button for an illegal source status, the
missing-location warning, the missing-geofence error, and the geofence
distance error (which carries the measured distance and the radius). -/
inductive TransitionError where
  | unauthorized
  | illegalTransition
  | locationRequired
  | noGeofence
  | geofenceViolation (distance : ℝ) (radius : ℝ)

/-- The five status-changing buttons of `detail_view`. -/
inductive TransitionName where
  | start
  | pause
  | resume
  | complete
  | verify
  deriving DecidableEq, Repr

/-- Degrees to radians, embedding `math.radians`. -/
noncomputable def radians (x : ℝ) : ℝ := x * Real.pi / 180

/-- Embeds `haversine(lon1, lat1, lon2, lat2)` (lines 88-95): great-circle
distance in meters with Earth radius 6371 km, floats modelled as reals. -/
noncomputable def haversine (lon1 lat1 lon2 lat2 : ℝ) : ℝ :=
  let lon1r := radians lon1
  let lat1r := radians lat1
  let lon2r := radians lon2
  let lat2r := radians lat2
  let dlon := lon2r - lon1r
  let dlat := lat2r - lat1r
  let a := Real.sin (dlat / 2) ^ 2 +
    Real.cos lat1r * Real.cos lat2r * Real.sin (dlon / 2) ^ 2
  let c := 2 * Real.arcsin (Real.sqrt a)
  c * 6371 * 1000

/-- Embeds the inner function `perform_action(new_status, action_text)` of
`detail_view` (lines 299-320): refuse without a location sample; refuse when
`geofence_center` or `geofence_radius` is falsy (absent, or radius 0);
refuse when the haversine distance from the observed point to the center
exceeds the radius; otherwise set the status, append one log entry and one
trail point. The accompanying store write of the mutated record is modelled
separately by `clickAction`. -/
noncomputable def perform_action (a : Activity) (loc : Option GeoPoint)
    (u : User) (new_status : Status) (action_text : String) (now : String) :
    Except TransitionError Activity :=
  match loc with
  | none => .error .locationRequired
  | some l =>
    match a.geofence_center, a.geofence_radius with
    | some center, some radius =>
      if radius = 0 then .error .noGeofence
      else if haversine l.longitude l.latitude center.2 center.1 > radius then
        .error (.geofenceViolation
          (haversine l.longitude l.latitude center.2 center.1) radius)
      else
        .ok { a with
          status := new_status,
          logs := a.logs ++ [⟨now, u.username, action_text⟩],
          location_trail := some ((a.location_trail.getD []) ++
            [⟨now, (l.longitude, l.latitude)⟩]) }
    | _, _ => .error .noGeofence

/-- Embeds one click on a transition button of `detail_view` (lines
322-338). The action area is only rendered for admin and vendor roles
(line 282), so other roles cannot attempt any transition; the Verify button
is only rendered for admins (line 333). A button disabled by its status
condition refuses the transition without mutating anything; an enabled
Start, Resume or Complete click runs `perform_action`, while Pause and
Verify mutate status and logs inline. -/
noncomputable def applyTransition (t : TransitionName) (a : Activity)
    (loc : Option GeoPoint) (u : User) (now : String) :
    Except TransitionError Activity :=
  if u.role = Role.admin ∨ u.role = Role.vendor then
    match t with
    | .start =>
      if a.status = Status.Pending then
        perform_action a loc u Status.InProgress "Work Started" now
      else .error .illegalTransition
    | .pause =>
      if a.status = Status.InProgress then
        .ok { a with
          status := Status.Paused,
          logs := a.logs ++ [⟨now, u.username, "Work Paused"⟩] }
      else .error .illegalTransition
    | .resume =>
      if a.status = Status.Paused then
        perform_action a loc u Status.InProgress "Work Resumed" now
      else .error .illegalTransition
    | .complete =>
      if a.status = Status.InProgress ∨ a.status = Status.Paused then
        perform_action a loc u Status.Completed "Work Completed" now
      else .error .illegalTransition
    | .verify =>
      if u.role = Role.admin then
        if a.status = Status.Completed then
          .ok { a with
            status := Status.Verified,
            logs := a.logs ++ [⟨now, u.username, "Work Verified"⟩] }
        else .error .illegalTransition
      else .error .unauthorized
  else .error .unauthorized

/-- Embeds the comment form submission of `detail_view` (lines 348-354):
append one log entry with action text "Comment: {text}"; no other field is
touched. The source only submits for a non-empty comment text. -/
def add_comment (a : Activity) (u : User) (text : String) (now : String) :
    Activity :=
  { a with logs := a.logs ++ [⟨now, u.username, "Comment: " ++ text⟩] }

/-- Embeds the periodic in-progress location logging mutation of
`detail_view` (lines 287-297), as performed once its rate-limit guard has
fired: append one System log entry and one trail point. -/
def periodic_update (a : Activity) (l : GeoPoint) (now : String) : Activity :=
  { a with
    logs := a.logs ++ [⟨now, "System", "Periodic location check."⟩],
    location_trail := some ((a.location_trail.getD []) ++
      [⟨now, (l.longitude, l.latitude)⟩]) }

/-- Transition table of the specification (section 4.3), used to state the
claims: which source statuses each named transition is allowed from. -/
def allowed_from : TransitionName → Status → Bool
  | .start, .Pending => true
  | .pause, .InProgress => true
  | .resume, .Paused => true
  | .complete, .InProgress => true
  | .complete, .Paused => true
  | .verify, .Completed => true
  | _, _ => false

/-- Role requirement per transition (section 4.3): Verify requires admin,
every other transition requires admin or vendor. -/
def role_allowed : TransitionName → Role → Bool
  | .verify, .admin => true
  | .verify, _ => false
  | _, .admin => true
  | _, .vendor => true
  | _, _ => false

/-- Resulting status of each transition on success. -/
def result_status : TransitionName → Status
  | .start => .InProgress
  | .pause => .Paused
  | .resume => .InProgress
  | .complete => .Completed
  | .verify => .Verified

/-- Log action text of each transition. -/
def log_text : TransitionName → String
  | .start => "Work Started"
  | .pause => "Work Paused"
  | .resume => "Work Resumed"
  | .complete => "Work Completed"
  | .verify => "Work Verified"

/-- One stored remote file: its content and its current version token
(the GitHub blob sha, modelled as an opaque natural number). -/
structure RemoteFile (α : Type) where
  content : α
  sha : Nat
  deriving DecidableEq, Repr

/-- First-match lookup in an association list keyed by path. -/
def lookup {β : Type} : List (String × β) → String → Option β
  | [], _ => none
  | (k, v) :: t, q => if k = q then some v else lookup t q

/-- Replace the entry at a key, or append it when absent. -/
def setEntry {β : Type} : List (String × β) → String → β → List (String × β)
  | [], k, v => [(k, v)]
  | (k', v') :: t, k, v =>
    if k' = k then (k, v) :: t else (k', v') :: setEntry t k v

/-- State of the storage layer as seen by the app: the remote content
store (path to file and token), a counter supplying fresh version tokens,
and the bounded-lifetime `st.cache_data` read cache fronting
`get_file_content`, keyed by path. A cache entry holds exactly what the
cached call returned: `(content?, sha?)`. Entries present in the cache are
those still within their TTL. -/
structure Store (α : Type) where
  remote : List (String × RemoteFile α)
  nextSha : Nat
  cache : List (String × (Option α × Option Nat))
  deriving DecidableEq, Repr

/-- Embeds `get_file_content(filepath)` (lines 48-62) together with its
`st.cache_data` memoisation: a cached result within the TTL is returned as
is; otherwise the remote is fetched — a 404 yields `(None, None)`, success
yields the content and its sha, and a transport failure (modelled by
`netOK = false`) is caught and also yields `(None, None)`. The returned
value is cached in every branch, as `st.cache_data` caches whatever the
function returns. -/
def get_file_content {α : Type} (s : Store α) (netOK : Bool)
    (filepath : String) : Store α × (Option α × Option Nat) :=
  match lookup s.cache filepath with
  | some r => (s, r)
  | none =>
    if netOK then
      match lookup s.remote filepath with
      | none =>
        ({ s with cache := (filepath, (none, none)) :: s.cache }, (none, none))
      | some f =>
        ({ s with cache := (filepath, (some f.content, some f.sha)) :: s.cache },
          (some f.content, some f.sha))
    else
      ({ s with cache := (filepath, (none, none)) :: s.cache }, (none, none))

/-- Embeds `create_or_update_file(filepath, content, sha)` (lines 65-85).
A transport failure (`netOK = false`) is caught and reported as `none`.
Otherwise the PUT follows the contents-API semantics of the external store:
with a matching token the file is replaced and a fresh token returned; a
stale token, or an update or creation attempt whose token presence does not
match the file existence, is rejected with an error status — which
`raise_for_status` turns into the caught exception, so the function again
returns `none` and the remote is unchanged. Only on success is the entire
read cache cleared (`st.cache_data.clear()`, line 81). -/
def create_or_update_file {α : Type} (s : Store α) (netOK : Bool)
    (filepath : String) (content : α) (sha : Option Nat) :
    Store α × Option Nat :=
  if netOK then
    match lookup s.remote filepath with
    | some f =>
      match sha with
      | some t =>
        if t = f.sha then
          (⟨setEntry s.remote filepath ⟨content, s.nextSha⟩, s.nextSha + 1, []⟩,
            some s.nextSha)
        else (s, none)
      | none => (s, none)
    | none =>
      match sha with
      | none =>
        (⟨(filepath, ⟨content, s.nextSha⟩) :: s.remote, s.nextSha + 1, []⟩,
          some s.nextSha)
      | some _ => (s, none)
  else (s, none)

/-- Composition of one button click with its store write: when the
transition is refused, `detail_view` returns before any write, so the store
is untouched; when it succeeds, the mutated record is written back with the
sha obtained from the read that loaded the record (line 318). -/
noncomputable def clickAction (s : Store Activity) (netOK : Bool)
    (filepath : String) (a : Activity) (sha : Option Nat)
    (t : TransitionName) (loc : Option GeoPoint) (u : User) (now : String) :
    Store Activity × Except TransitionError Activity :=
  match applyTransition t a loc u now with
  | .error e => (s, .error e)
  | .ok a2 => ((create_or_update_file s netOK filepath a2 sha).1, .ok a2)

/-! Helper lemmas -/

/-- Evaluation of the haversine distance on the diagonal: both angle
differences vanish, so the distance is exactly zero. -/
theorem haversine_diag (lon lat : ℝ) : haversine lon lat lon lat = 0 := by
  simp [haversine]

/-- Symmetry of the haversine distance in its two points. -/
theorem haversine_comm (lon1 lat1 lon2 lat2 : ℝ) :
    haversine lon1 lat1 lon2 lat2 = haversine lon2 lat2 lon1 lat1 := by
  simp only [haversine]
  have hsin : ∀ x : ℝ, Real.sin (-x / 2) ^ 2 = Real.sin (x / 2) ^ 2 := by
    intro x
    rw [neg_div, Real.sin_neg, neg_sq]
  have h1 : radians lat1 - radians lat2 = -(radians lat2 - radians lat1) := by
    ring
  have h2 : radians lon1 - radians lon2 = -(radians lon2 - radians lon1) := by
    ring
  rw [h1, h2, hsin, hsin, mul_comm (Real.cos (radians lat2))]

/-- Looking up the key just set by `setEntry` yields the new value. -/
theorem lookup_setEntry_self {β : Type} (l : List (String × β)) (k : String)
    (v : β) : lookup (setEntry l k v) k = some v := by
  induction l with
  | nil => simp [setEntry, lookup]
  | cons hd tl ih =>
    obtain ⟨k2, v2⟩ := hd
    by_cases hk : k2 = k
    · simp [setEntry, hk, lookup]
    · simp [setEntry, hk, lookup, ih]

/-- Failure shape of `perform_action` outside the geofence: with a defined
geofence and a measured distance above the radius, the result is the
geofence error carrying that distance and the radius. -/
theorem perform_action_violation (a : Activity) (l : GeoPoint) (u : User)
    (ns : Status) (txt now : String) (c : ℝ × ℝ) (r : ℝ)
    (hc : a.geofence_center = some c) (hr : a.geofence_radius = some r)
    (hr0 : r ≠ 0) (hd : haversine l.longitude l.latitude c.2 c.1 > r) :
    perform_action a (some l) u ns txt now =
      .error (.geofenceViolation (haversine l.longitude l.latitude c.2 c.1) r) := by
  simp [perform_action, hc, hr, hr0, hd]

/-- Success shape of `perform_action` inside the geofence: the status is
set and exactly one log entry and one trail point are appended. -/
theorem perform_action_within (a : Activity) (l : GeoPoint) (u : User)
    (ns : Status) (txt now : String) (c : ℝ × ℝ) (r : ℝ)
    (hc : a.geofence_center = some c) (hr : a.geofence_radius = some r)
    (hr0 : r ≠ 0) (hd : haversine l.longitude l.latitude c.2 c.1 ≤ r) :
    perform_action a (some l) u ns txt now =
      .ok { a with
        status := ns,
        logs := a.logs ++ [⟨now, u.username, txt⟩],
        location_trail := some ((a.location_trail.getD []) ++
          [⟨now, (l.longitude, l.latitude)⟩]) } := by
  have hnd : ¬ haversine l.longitude l.latitude c.2 c.1 > r := not_lt.mpr hd
  simp [perform_action, hc, hr, hr0, hnd]

/-- Fixture: admin user. -/
def adminUser : User := ⟨"admin", Role.admin⟩

/-- Fixture: vendor user. -/
def vendorUser : User := ⟨"v1", Role.vendor⟩

/-- Fixture: an observed location at the origin. -/
def originLoc : GeoPoint := ⟨0, 0⟩

/-- Fixture: a pending activity with its geofence centered at the origin
with radius 500 m. -/
def baseAct : Activity :=
  { title := "t", description := "d", vendor := "v1", site := "s",
    status := Status.Pending, createdAt := "2024-01-01",
    geofence_center := some (0, 0), geofence_radius := some 500,
    logs := [⟨"2024-01-01", "admin", "Activity created."⟩],
    location_trail := some [] }

/-- Fixture: the same activity in progress. -/
def ipAct : Activity := { baseAct with status := Status.InProgress }

/-- Fixture: the same activity completed. -/
def compAct : Activity := { baseAct with status := Status.Completed }

/-- Fixture: the same pending activity with a nonzero radius strictly
below any reachable distance. -/
def negRadAct : Activity := { baseAct with geofence_radius := some (-1) }

/-! Claim theorems -/

/-- C9: the haversine distance is symmetric in its two points, and is
exactly zero (hence zero within any floating-point tolerance) on the
diagonal. -/
theorem c9_distance_symm_and_diag :
    (∀ lon1 lat1 lon2 lat2 : ℝ,
        haversine lon1 lat1 lon2 lat2 = haversine lon2 lat2 lon1 lat1) ∧
    (∀ lon lat : ℝ, haversine lon lat lon lat = 0) :=
  ⟨haversine_comm, haversine_diag⟩

/-- C8: submitting a comment appends exactly one log entry with action
text "Comment: {text}" and leaves every other field unchanged — the result
is the input activity with only the logs field extended, so in particular
status and location trail are untouched and no geofence check is made. -/
theorem c8_comment_frame (a : Activity) (u : User) (text now : String) :
    add_comment a u text now =
      { a with logs := a.logs ++ [⟨now, u.username, "Comment: " ++ text⟩] } ∧
    (add_comment a u text now).status = a.status ∧
    (add_comment a u text now).location_trail = a.location_trail :=
  ⟨rfl, rfl, rfl⟩

/-- C1 (counterexample): a vendor attempting Verify on a Pending activity —
a (status, transition) pair outside the allowed-from set — is refused with
Unauthorized, not IllegalTransition, because the Verify button is only
rendered for admins. -/
theorem c1_counterexample :
    applyTransition TransitionName.verify baseAct none vendorUser "t0" =
      .error .unauthorized ∧
    allowed_from TransitionName.verify baseAct.status = false ∧
    (Except.error TransitionError.unauthorized :
        Except TransitionError Activity) ≠ .error .illegalTransition :=
  ⟨rfl, rfl, by simp⟩

/-- C1 (amended): for every (status, transition) pair outside the
allowed-from set, an attempt by a user whose role is authorized for that
transition is refused with IllegalTransition and nothing is written — the
store is untouched; an unauthorized role is refused with Unauthorized
instead, still without any mutation. -/
theorem c1_illegal_transition_refused (t : TransitionName) (a : Activity)
    (loc : Option GeoPoint) (u : User) (now : String)
    (s : Store Activity) (net : Bool) (fp : String) (sh : Option Nat)
    (h1 : allowed_from t a.status = false)
    (h2 : role_allowed t u.role = true) :
    applyTransition t a loc u now = .error .illegalTransition ∧
    (clickAction s net fp a sh t loc u now).1 = s := by
  have hmain : applyTransition t a loc u now = .error .illegalTransition := by
    cases t <;> cases hu : u.role <;> cases hs : a.status <;>
      simp_all [applyTransition, allowed_from, role_allowed]
  exact ⟨hmain, by simp [clickAction, hmain]⟩

/-- C1 (witness): Start attempted by an admin on an InProgress activity is
refused with IllegalTransition and the store is unchanged. -/
theorem c1_witness :
    applyTransition TransitionName.start ipAct none adminUser "t0" =
      .error .illegalTransition ∧
    (clickAction ⟨[], 0, []⟩ true "f" ipAct none TransitionName.start none
        adminUser "t0").1 = (⟨[], 0, []⟩ : Store Activity) :=
  c1_illegal_transition_refused TransitionName.start ipAct none adminUser "t0"
    ⟨[], 0, []⟩ true "f" none rfl rfl

/-- C6: Verify succeeds exactly when the acting role is admin and the
status is Completed, and any non-admin attempting Verify is refused with
Unauthorized regardless of the activity status. -/
theorem c6_verify_admin_only (a : Activity) (loc : Option GeoPoint)
    (u : User) (now : String) :
    ((∃ a2, applyTransition TransitionName.verify a loc u now = .ok a2) ↔
      (u.role = Role.admin ∧ a.status = Status.Completed)) ∧
    (u.role ≠ Role.admin →
      applyTransition TransitionName.verify a loc u now =
        .error .unauthorized) := by
  cases hu : u.role <;> cases hs : a.status <;> simp_all [applyTransition]

/-- C6 (witness): a vendor attempting Verify on a Completed activity is
refused with Unauthorized. -/
theorem c6_witness :
    applyTransition TransitionName.verify compAct none vendorUser "t0" =
      .error .unauthorized :=
  (c6_verify_admin_only compAct none vendorUser "t0").2 (by decide)

/-- Success shape of any transition: the resulting record has exactly one
appended log entry; the stored log list is otherwise preserved, so it is
never shortened or reordered. -/
theorem applyTransition_ok_logs (t : TransitionName) (a : Activity)
    (loc : Option GeoPoint) (u : User) (now : String) (a2 : Activity)
    (h : applyTransition t a loc u now = .ok a2) :
    ∃ e, a2.logs = a.logs ++ [e] := by
  have hperf : ∀ (ns : Status) (txt : String),
      perform_action a loc u ns txt now = Except.ok a2 →
      ∃ e, a2.logs = a.logs ++ [e] := by
    intro ns txt hp
    unfold perform_action at hp
    split at hp
    · exact absurd hp (by simp)
    · split at hp
      · split at hp
        · exact absurd hp (by simp)
        · split at hp
          · exact absurd hp (by simp)
          · exact ⟨_, by rw [← Except.ok.inj hp]⟩
      all_goals exact absurd hp (by simp)
  cases t
  case start =>
    simp only [applyTransition] at h
    split at h
    · split at h
      · exact hperf _ _ h
      · exact absurd h (by simp)
    · exact absurd h (by simp)
  case pause =>
    simp only [applyTransition] at h
    split at h
    · split at h
      · exact ⟨_, by rw [← Except.ok.inj h]⟩
      · exact absurd h (by simp)
    · exact absurd h (by simp)
  case resume =>
    simp only [applyTransition] at h
    split at h
    · split at h
      · exact hperf _ _ h
      · exact absurd h (by simp)
    · exact absurd h (by simp)
  case complete =>
    simp only [applyTransition] at h
    split at h
    · split at h
      · exact hperf _ _ h
      · exact absurd h (by simp)
    · exact absurd h (by simp)
  case verify =>
    simp only [applyTransition] at h
    split at h
    · split at h
      · split at h
        · exact ⟨_, by rw [← Except.ok.inj h]⟩
        · exact absurd h (by simp)
      · exact absurd h (by simp)
    · exact absurd h (by simp)

/-- C7: every status-changing operation that succeeds appends exactly one
log entry to the record written in that same write, and no operation ever
removes or reorders stored log entries: the previous log list is a prefix
of the new one for the five transitions, for comments, and for the
periodic location logger, so the length of logs never decreases. -/
theorem c7_logs_append_only (t : TransitionName) (a : Activity)
    (loc : Option GeoPoint) (u : User) (now : String) (a2 : Activity)
    (h : applyTransition t a loc u now = .ok a2) :
    (∃ e, a2.logs = a.logs ++ [e]) ∧
    (∀ (v : User) (text n2 : String),
      (add_comment a v text n2).logs =
        a.logs ++ [⟨n2, v.username, "Comment: " ++ text⟩]) ∧
    (∀ (l : GeoPoint) (n2 : String),
      (periodic_update a l n2).logs =
        a.logs ++ [⟨n2, "System", "Periodic location check."⟩]) :=
  ⟨applyTransition_ok_logs t a loc u now a2 h,
    fun _ _ _ => rfl, fun _ _ => rfl⟩

/-- C7 (witness): the Pause transition on an in-progress activity succeeds
and appends exactly one log entry. -/
theorem c7_witness :
    (∃ e, ({ ipAct with
        status := Status.Paused,
        logs := ipAct.logs ++ [⟨"t0", "admin", "Work Paused"⟩] } :
          Activity).logs = ipAct.logs ++ [e]) ∧
    (∀ (v : User) (text n2 : String),
      (add_comment ipAct v text n2).logs =
        ipAct.logs ++ [⟨n2, v.username, "Comment: " ++ text⟩]) ∧
    (∀ (l : GeoPoint) (n2 : String),
      (periodic_update ipAct l n2).logs =
        ipAct.logs ++ [⟨n2, "System", "Periodic location check."⟩]) :=
  c7_logs_append_only TransitionName.pause ipAct none adminUser "t0" _ rfl

/-- C2: a geofence-gated transition (Start, Resume, Complete) attempted
from a legal source status by an authorized role, with an observed location
whose haversine distance to the geofence center exceeds the radius, fails
with the geofence error carrying the measured distance and the radius, and
nothing is mutated: no record is produced and the store is untouched, so
status, log count and trail length are all as before. -/
theorem c2_geofence_violation_unchanged (t : TransitionName) (a : Activity)
    (l : GeoPoint) (u : User) (now : String)
    (s : Store Activity) (net : Bool) (fp : String) (sh : Option Nat)
    (c : ℝ × ℝ) (r : ℝ)
    (hg : t = TransitionName.start ∨ t = TransitionName.resume ∨
      t = TransitionName.complete)
    (hlegal : allowed_from t a.status = true)
    (hrole : u.role = Role.admin ∨ u.role = Role.vendor)
    (hc : a.geofence_center = some c) (hr : a.geofence_radius = some r)
    (hr0 : r ≠ 0)
    (hd : haversine l.longitude l.latitude c.2 c.1 > r) :
    applyTransition t a (some l) u now =
      .error (.geofenceViolation (haversine l.longitude l.latitude c.2 c.1) r) ∧
    (clickAction s net fp a sh t (some l) u now).1 = s := by
  have key : applyTransition t a (some l) u now =
      .error (.geofenceViolation
        (haversine l.longitude l.latitude c.2 c.1) r) := by
    rcases hg with rfl | rfl | rfl
    · have hp : a.status = Status.Pending := by
        cases hs : a.status <;> simp_all [allowed_from]
      simp only [applyTransition]
      rw [if_pos hrole, if_pos hp]
      exact perform_action_violation a l u _ _ now c r hc hr hr0 hd
    · have hp : a.status = Status.Paused := by
        cases hs : a.status <;> simp_all [allowed_from]
      simp only [applyTransition]
      rw [if_pos hrole, if_pos hp]
      exact perform_action_violation a l u _ _ now c r hc hr hr0 hd
    · have hp : a.status = Status.InProgress ∨ a.status = Status.Paused := by
        cases hs : a.status <;> simp_all [allowed_from]
      simp only [applyTransition]
      rw [if_pos hrole, if_pos hp]
      exact perform_action_violation a l u _ _ now c r hc hr hr0 hd
  exact ⟨key, by simp [clickAction, key]⟩

/-- C2 (witness): Start attempted by an admin at the geofence center of an
activity whose stored radius is the nonzero value -1 (distance 0 exceeds
that radius) fails with the geofence error and the store is untouched. -/
theorem c2_witness :
    applyTransition TransitionName.start negRadAct (some originLoc) adminUser
        "t0" =
      .error (.geofenceViolation (haversine 0 0 0 0) (-1)) ∧
    (clickAction ⟨[], 0, []⟩ true "f" negRadAct none TransitionName.start
        (some originLoc) adminUser "t0").1 = (⟨[], 0, []⟩ : Store Activity) :=
  c2_geofence_violation_unchanged TransitionName.start negRadAct originLoc
    adminUser "t0" ⟨[], 0, []⟩ true "f" none (0, 0) (-1)
    (Or.inl rfl) rfl (Or.inl rfl) rfl rfl (by norm_num)
    (by show haversine 0 0 0 0 > -1; rw [haversine_diag]; norm_num)

/-- C3: a geofence-gated transition (Start, Resume, Complete) attempted
from a legal source status by an authorized role, with an observed location
within the (positive) radius, succeeds and produces the input record with
the expected resulting status, exactly one appended log entry, and exactly
one appended trail point. -/
theorem c3_gated_success (t : TransitionName) (a : Activity)
    (l : GeoPoint) (u : User) (now : String) (c : ℝ × ℝ) (r : ℝ)
    (hg : t = TransitionName.start ∨ t = TransitionName.resume ∨
      t = TransitionName.complete)
    (hlegal : allowed_from t a.status = true)
    (hrole : u.role = Role.admin ∨ u.role = Role.vendor)
    (hc : a.geofence_center = some c) (hr : a.geofence_radius = some r)
    (h0 : 0 < r)
    (hd : haversine l.longitude l.latitude c.2 c.1 ≤ r) :
    applyTransition t a (some l) u now =
      .ok { a with
        status := result_status t,
        logs := a.logs ++ [⟨now, u.username, log_text t⟩],
        location_trail := some ((a.location_trail.getD []) ++
          [⟨now, (l.longitude, l.latitude)⟩]) } := by
  have hr0 : r ≠ 0 := ne_of_gt h0
  rcases hg with rfl | rfl | rfl
  · have hp : a.status = Status.Pending := by
      cases hs : a.status <;> simp_all [allowed_from]
    simp only [applyTransition, result_status, log_text]
    rw [if_pos hrole, if_pos hp]
    exact perform_action_within a l u _ _ now c r hc hr hr0 hd
  · have hp : a.status = Status.Paused := by
      cases hs : a.status <;> simp_all [allowed_from]
    simp only [applyTransition, result_status, log_text]
    rw [if_pos hrole, if_pos hp]
    exact perform_action_within a l u _ _ now c r hc hr hr0 hd
  · have hp : a.status = Status.InProgress ∨ a.status = Status.Paused := by
      cases hs : a.status <;> simp_all [allowed_from]
    simp only [applyTransition, result_status, log_text]
    rw [if_pos hrole, if_pos hp]
    exact perform_action_within a l u _ _ now c r hc hr hr0 hd

/-- C3 (witness): Start by an admin at the geofence center (distance 0,
radius 500) succeeds, sets the status to InProgress and appends one log
entry and one trail point. -/
theorem c3_witness :
    applyTransition TransitionName.start baseAct (some originLoc) adminUser
        "t0" =
      .ok { baseAct with
        status := Status.InProgress,
        logs := baseAct.logs ++ [⟨"t0", "admin", "Work Started"⟩],
        location_trail := some ((baseAct.location_trail.getD []) ++
          [⟨"t0", (0, 0)⟩]) } :=
  c3_gated_success TransitionName.start baseAct originLoc adminUser "t0"
    (0, 0) 500 (Or.inl rfl) rfl (Or.inl rfl) rfl rfl (by norm_num)
    (by show haversine 0 0 0 0 ≤ 500; rw [haversine_diag]; norm_num)

/-- C10: a read whose remote object does not exist (HTTP 404) and a read
that fails with a transport error return the identical value (none, none),
so a caller of the read operation cannot distinguish a benign not-found
from a failed read; stated for reads not answered from the cache. -/
theorem c10_notfound_equals_transport {α : Type} (s1 s2 : Store α)
    (p : String)
    (h1 : lookup s1.cache p = none) (h2 : lookup s1.remote p = none)
    (h3 : lookup s2.cache p = none) :
    (get_file_content s1 true p).2 = (none, none) ∧
    (get_file_content s2 false p).2 = (none, none) := by
  constructor
  · simp [get_file_content, h1, h2]
  · simp [get_file_content, h3]

/-- C10 (witness): on an empty store, reading a missing path with the
network up and reading with the network down both return (none, none). -/
theorem c10_witness :
    (get_file_content (⟨[], 0, []⟩ : Store String) true "p").2 =
      (none, none) ∧
    (get_file_content (⟨[], 0, []⟩ : Store String) false "p").2 =
      (none, none) :=
  c10_notfound_equals_transport ⟨[], 0, []⟩ ⟨[], 0, []⟩ "p" rfl rfl rfl

/-- C4 (counterexample): on a store holding "p" at token 2, a write that
carries the stale token 1 returns exactly the same result as a write that
fails with a transport error — the bare failure value none — so the
Conflict outcome is not distinguishable from TransportError as the claim
requires. -/
theorem c4_counterexample :
    create_or_update_file (⟨[("p", ⟨"old", 2⟩)], 3, []⟩ : Store String)
        true "p" "new" (some 1) =
      create_or_update_file (⟨[("p", ⟨"old", 2⟩)], 3, []⟩ : Store String)
        false "p" "new" (some 1) ∧
    (create_or_update_file (⟨[("p", ⟨"old", 2⟩)], 3, []⟩ : Store String)
        true "p" "new" (some 1)).2 = none :=
  ⟨rfl, rfl⟩

/-- C4 (amended): a write carrying a stale expectedVersionToken fails and
performs no retry or merge — the store state, remote record included, is
returned unchanged — but the failure result is the same none that a
transport error produces, so the caller cannot tell Conflict from
TransportError and must re-read before retrying either way. -/
theorem c4_stale_write_rejected {α : Type} (s : Store α) (p : String)
    (c : α) (tk : Nat) (f : RemoteFile α)
    (hf : lookup s.remote p = some f) (hne : tk ≠ f.sha) :
    create_or_update_file s true p c (some tk) = (s, none) ∧
    create_or_update_file s true p c (some tk) =
      create_or_update_file s false p c (some tk) := by
  constructor <;> simp [create_or_update_file, hf, hne]

/-- C4 (witness): the stale write of the counterexample leaves the store
unchanged and returns none, identical to the transport-error result. -/
theorem c4_witness :
    create_or_update_file (⟨[("p", ⟨"old", 2⟩)], 3, []⟩ : Store String)
        true "p" "new" (some 1) =
      ((⟨[("p", ⟨"old", 2⟩)], 3, []⟩ : Store String), none) ∧
    create_or_update_file (⟨[("p", ⟨"old", 2⟩)], 3, []⟩ : Store String)
        true "p" "new" (some 1) =
      create_or_update_file (⟨[("p", ⟨"old", 2⟩)], 3, []⟩ : Store String)
        false "p" "new" (some 1) :=
  c4_stale_write_rejected ⟨[("p", ⟨"old", 2⟩)], 3, []⟩ "p" "new" 1
    ⟨"old", 2⟩ rfl (by decide)

/-- C5: after every successful write through the store the read cache is
invalidated for the written record, so the next read returns exactly the
just-written content and its new token; and two consecutive reads of one
path with no intervening write return identical content and token. -/
theorem c5_cache_invalidation_and_idempotence {α : Type}
    (s s2 : Store α) (p : String) (c : α) (sh : Option Nat) (v : Nat)
    (t : Store α) (net : Bool) (q : String)
    (h : create_or_update_file s true p c sh = (s2, some v)) :
    (get_file_content s2 true p).2 = (some c, some v) ∧
    (get_file_content (get_file_content t net q).1 net q).2 =
      (get_file_content t net q).2 := by
  constructor
  · unfold create_or_update_file at h
    rw [if_pos rfl] at h
    split at h
    · split at h
      · split at h
        · injection h with h1 h2
          subst h1
          injection h2 with h2
          subst h2
          simp [get_file_content, lookup, lookup_setEntry_self]
        · exact absurd h (by simp)
      · exact absurd h (by simp)
    · split at h
      · injection h with h1 h2
        subst h1
        injection h2 with h2
        subst h2
        simp [get_file_content, lookup]
      · exact absurd h (by simp)
  · cases hq : lookup t.cache q
    · cases net
      · simp [get_file_content, hq, lookup]
      · cases hrem : lookup t.remote q <;>
          simp [get_file_content, hq, hrem, lookup]
    · simp [get_file_content, hq]

/-- C5 (witness): creating "p" with content "c" on an empty store yields
token 0, and the immediately following read returns exactly that content
and token; two consecutive reads of a fresh path return the same result. -/
theorem c5_witness :
    (get_file_content (⟨[("p", ⟨"c", 0⟩)], 1, []⟩ : Store String) true
        "p").2 = (some "c", some 0) ∧
    (get_file_content
        (get_file_content (⟨[], 0, []⟩ : Store String) true "q").1 true
        "q").2 =
      (get_file_content (⟨[], 0, []⟩ : Store String) true "q").2 :=
  c5_cache_invalidation_and_idempotence ⟨[], 0, []⟩ ⟨[("p", ⟨"c", 0⟩)], 1, []⟩
    "p" "c" none 0 ⟨[], 0, []⟩ true "q" rfl
